import Mathlib

/-!
Verification of the taiko-client core coordination logic (Prover and Driver)
against its natural-language specification.

The Go source is shallowly embedded: machine integers (uint64) are modelled
as Nat, with explicit reduction modulo 2^64 where Go's wrapping arithmetic
matters; fallible RPC calls are modelled as oracle functions returning
Option; the per-event callback of the prover's event iterator is a pure
function from the prover state and the observable environment (channel
lengths, RPC answers) to the new state plus the performed action; buffered
channels used as semaphores or coalescing notifiers are modelled by their
occupancy count with their source-fixed capacity.
-/

namespace TaikoClient

/-- Word size of Go's uint64, used where the source's wrapping arithmetic
matters. -/
def UINT64_MOD : Nat := 2 ^ 64

/-- Wrapping uint64 addition. -/
def u64add (a b : Nat) : Nat := (a + b) % UINT64_MOD

/-- Wrapping uint64 subtraction (operands are reduced first, as Go values
always are). -/
def u64sub (a b : Nat) : Nat := (a % UINT64_MOD + (UINT64_MOD - b % UINT64_MOD)) % UINT64_MOD

/-! ## Prover data model (src/prover/prover.go) -/

/-- Configuration fields of the prover that the core logic reads
(prover.go: Config usages in InitFromConfig and onBlockProposed). -/
structure Config where
  maxConcurrentProvingJobs : Nat
  dummy : Bool
  onlyProveEvenNumberBlocks : Bool
  onlyProveOddNumberBlocks : Bool
  startingBlockID : Option Nat
  deriving Repr, DecidableEq

/-- Mutable cursor state of the Prover (prover.go lines 38-41). -/
structure ProverState where
  latestVerifiedL1Height : Nat
  lastHandledBlockID : Nat
  l1Current : Nat
  deriving Repr, DecidableEq

/-- A BlockProposed event as onBlockProposed reads it: the block id
(event.Id.Uint64()) and the L1 block number of the emitting log
(event.Raw.BlockNumber). -/
structure ProposedEvent where
  id : Nat
  rawBlockNumber : Nat
  deriving Repr, DecidableEq

/-- What a single call to onBlockProposed did. -/
inductive OnBlockAction where
  /-- A result channel was non-empty: end() was invoked and the call
  returned nil immediately. -/
  | endIter
  /-- event.Id &le; lastHandledBlockID: skipped. -/
  | skipHandled
  /-- A parity filter rejected the id: skipped. -/
  | skipParity
  /-- A proposeConcurrencyGuard token was acquired, the cursors were
  updated, and a worker goroutine was spawned for the event. -/
  | dispatch
  deriving Repr, DecidableEq

/-- Result of one onBlockProposed call: the prover state afterwards and the
action taken. -/
structure OBPResult where
  state : ProverState
  action : OnBlockAction
  deriving Repr, DecidableEq

/-- Embedding of Prover.onBlockProposed (prover.go lines 270-350).
validChLen and invalidChLen are the observed lengths of proveValidProofCh
and proveInvalidProofCh at the head of the call. -/
def onBlockProposed (cfg : Config) (validChLen invalidChLen : Nat)
    (s : ProverState) (ev : ProposedEvent) : OBPResult :=
  if validChLen > 0 || invalidChLen > 0 then
    ⟨s, .endIter⟩
  else if ev.id ≤ s.lastHandledBlockID then
    ⟨s, .skipHandled⟩
  else if cfg.onlyProveEvenNumberBlocks && ev.id % 2 != 0 then
    ⟨s, .skipParity⟩
  else if cfg.onlyProveOddNumberBlocks && ev.id % 2 == 0 then
    ⟨s, .skipParity⟩
  else
    ⟨{ s with l1Current := ev.rawBlockNumber, lastHandledBlockID := ev.id }, .dispatch⟩

/-- Hint returned by TxListValidator.ValidateTxList for a proposed block's
transaction list: HintOK or some invalidity hint. -/
inductive Hint where
  | ok
  | invalidHint
  deriving Repr, DecidableEq

/-- Observable environment of the worker goroutine spawned by
onBlockProposed (prover.go lines 295-336): answers of the RPC-backed
checks, each fallible. -/
structure WorkerEnv where
  isBlockVerified : Option Bool
  needNewProof : Option Bool
  txInBlock : Option Unit
  validateTxList : Option Hint
  deriving Repr, DecidableEq

/-- Which submitter's RequestProof the worker invoked, if any. -/
inductive SubmitterCall where
  | validSubmitter
  | invalidSubmitter
  | noCall
  deriving Repr, DecidableEq

/-- Embedding of the handleBlockProposedEvent closure (prover.go lines
295-336): none models an error return (no RequestProof invoked on that
path either). -/
def handleBlockProposedEvent (env : WorkerEnv) : Option SubmitterCall :=
  match env.isBlockVerified with
  | none => none
  | some true => some .noCall
  | some false =>
    match env.needNewProof with
    | none => none
    | some false => some .noCall
    | some true =>
      match env.txInBlock with
      | none => none
      | some _ =>
        match env.validateTxList with
        | none => none
        | some .ok => some .validSubmitter
        | some .invalidHint => some .invalidSubmitter

/-- Whether the worker ends up invoking some submitter's RequestProof. -/
def requestsProof (env : WorkerEnv) : Bool :=
  match handleBlockProposedEvent env with
  | some .validSubmitter => true
  | some .invalidSubmitter => true
  | _ => false

/-- One event delivery as the iterator replays it: the event together with
the environment observed while handling it. -/
structure Delivery where
  ev : ProposedEvent
  validChLen : Nat
  invalidChLen : Nat
  workerEnv : WorkerEnv
  deriving Repr, DecidableEq

/-- Replays a list of deliveries through onBlockProposed, returning the
final state, the dispatched block ids in order, and the block ids for which
a submitter's RequestProof was invoked, in order. -/
def runEvents (cfg : Config) (s : ProverState) :
    List Delivery → ProverState × List Nat × List Nat
  | [] => (s, [], [])
  | d :: ds =>
    let r := onBlockProposed cfg d.validChLen d.invalidChLen s d.ev
    let rest := runEvents cfg r.state ds
    if r.action = .dispatch then
      (rest.1, d.ev.id :: rest.2.1,
        if requestsProof d.workerEnv then d.ev.id :: rest.2.2 else rest.2.2)
    else
      rest

/-! ## initL1Current (prover.go lines 404-430) -/

/-- Protocol state variables returned by GetProtocolStateVariables, as the
core reads them. -/
structure ProtocolStateVars where
  genesisHeight : Nat
  latestVerifiedHeight : Nat
  latestVerifiedId : Nat
  nextBlockId : Nat
  deriving Repr, DecidableEq

/-- An L1Origin record as returned by L2.L1OriginByID, restricted to the
field initL1Current reads. -/
structure L1Origin where
  l1BlockHeight : Nat
  deriving Repr, DecidableEq

/-- RPC environment observed by one initL1Current call: whether
WaitTillL2Synced succeeded, the answer of GetProtocolStateVariables, and
the L1Origin lookup (each none on error). -/
structure InitL1CurrentEnv where
  l2SyncedOk : Bool
  stateVars : Option ProtocolStateVars
  l1OriginByID : Nat → Option L1Origin

/-- Embedding of Prover.initL1Current (prover.go lines 404-430): returns
the updated prover state, or none when an RPC call failed. -/
def initL1Current (env : InitL1CurrentEnv) (startingBlockID : Option Nat)
    (s : ProverState) : Option ProverState :=
  if !env.l2SyncedOk then
    none
  else
    match startingBlockID with
    | none =>
      match env.stateVars with
      | none => none
      | some vars =>
        if vars.latestVerifiedId = 0 then
          some { s with l1Current := vars.genesisHeight }
        else
          match env.l1OriginByID vars.latestVerifiedId with
          | none => none
          | some origin => some { s with l1Current := origin.l1BlockHeight }
    | some sid =>
      match env.l1OriginByID sid with
      | none => none
      | some origin => some { s with l1Current := origin.l1BlockHeight }

/-! ## Notify channels (prover.go line 116, driver line 114) -/

/-- Capacity of the prover's proveNotify channel, fixed by
InitFromConfig: make(chan struct\x7b\x7d, 1) (prover.go line 116). -/
def proveNotifyCap : Nat := 1

/-- Capacity of the driver's syncNotify channel, fixed by InitFromConfig:
make(chan struct\x7b\x7d, 1) (driver source line 114). -/
def syncNotifyCap : Nat := 1

/-- Non-blocking send on a buffered channel of the given capacity, as a
select with a default branch performs it: the occupancy grows by one when
below capacity and is unchanged otherwise. -/
def trySend (cap n : Nat) : Nat := if n < cap then n + 1 else n

/-- Embedding of the reqProving closure of Prover.eventLoop (prover.go
lines 190-195), acting on the occupancy of proveNotify. -/
def reqProving (n : Nat) : Nat := trySend proveNotifyCap n

/-- Embedding of the reqSync closure of Driver.eventLoop (driver source
lines 179-184), acting on the occupancy of syncNotify. -/
def reqSync (n : Nat) : Nat := trySend syncNotifyCap n

/-! ## Concurrency guards (prover.go lines 130-131, 338, 296, 354, 356) -/

/-- Capacity of proposeConcurrencyGuard, fixed by InitFromConfig
(prover.go line 130). -/
def proposeConcurrencyGuardCap (cfg : Config) : Nat := cfg.maxConcurrentProvingJobs

/-- Capacity of submitProofConcurrencyGuard, fixed by InitFromConfig
(prover.go line 131). -/
def submitProofConcurrencyGuardCap (cfg : Config) : Nat := cfg.maxConcurrentProvingJobs

/-- Transitions of a fixed-capacity token channel used as a semaphore: a
blocking send (a token enters before a worker is spawned; it can only
complete while the occupancy is below the capacity) or a receive (a worker
exits and takes its token back). The occupancy counts the running
workers. -/
inductive GuardStep (cap : Nat) : Nat → Nat → Prop where
  | acquire (n : Nat) : n < cap → GuardStep cap n (n + 1)
  | release (n : Nat) : GuardStep cap (n + 1) n

/-- Occupancies reachable from the empty guard channel. -/
inductive GuardReachable (cap : Nat) : Nat → Prop where
  | init : GuardReachable cap 0
  | step {n m : Nat} : GuardReachable cap n → GuardStep cap n m → GuardReachable cap m

/-! ## submitProofOp (prover.go lines 352-381) -/

/-- Backoff interval of the oracle resubmission loop, fixed by
submitProofOp: backoff.NewConstantBackOff(12*time.Second) (prover.go line
369), in seconds. -/
def oracleResubmissionBackoffSeconds : Nat := 12

/-- Whether submitProofOp wraps the valid-proof submission in the
constant-backoff retry loop: only when the proof is a valid-block proof and
the configured producer is the dummy "oracle" mode (prover.go lines
359-375). -/
def usesOracleRetryLoop (cfg : Config) (isValidProof : Bool) : Bool :=
  isValidProof && cfg.dummy

/-- Outcome of one SubmitProof call inside the retry closure, as the
closure sees it: either nil (the closure returns nil and backoff.Retry
stops) or an error (the closure returns it and backoff.Retry retries after
the constant backoff).

Modelled from the spec: the ProofSubmitter.SubmitProof implementation is
not part of the given sources; per the spec's error-handling design,
context cancellation is swallowed (a cancelled context makes the call
return nil rather than an error), so attemptOk holds as soon as either the
submission succeeded or ctx.Err() is non-nil. -/
def attemptOk (ctxErr submitErr : Nat → Bool) (n : Nat) : Bool :=
  ctxErr n || !submitErr n

/-- Embedding of backoff.Retry with a constant backoff over the retry
closure of submitProofOp: starting from attempt index i with the given
fuel, returns the total number of SubmitProof calls made before the
closure first returned nil, or none when fuel ran out first. -/
def oracleRetryCalls (ok : Nat → Bool) : Nat → Nat → Option Nat
  | 0, _ => none
  | fuel + 1, i => if ok i then some 1 else
      match oracleRetryCalls ok fuel (i + 1) with
      | none => none
      | some c => some (c + 1)

/-- Number of SubmitProof calls performed by the task spawned by
submitProofOp (prover.go lines 355-380): the oracle retry loop when
isValidProof and cfg.dummy, a single call otherwise. -/
def submitProofOpCalls (cfg : Config) (isValidProof : Bool)
    (ctxErr submitErr : Nat → Bool) (fuel : Nat) : Option Nat :=
  if usesOracleRetryLoop cfg isValidProof then
    oracleRetryCalls (attemptOk ctxErr submitErr) fuel 0
  else
    some 1

/-! ## Driver status report (driver source lines 234-278) -/

/-- One structured "Protocol status" log record emitted by
reportProtocolStatus every 30 seconds. -/
structure StatusReport where
  latestVerifiedId : Nat
  latestVerifiedHeight : Nat
  pendingBlocks : Nat
  availableSlots : Nat
  deriving Repr, DecidableEq

/-- Tick interval of the driver status reporter, fixed by
reportProtocolStatus: time.NewTicker(30 * time.Second) (driver source line
235), in seconds. -/
def statusReportIntervalSeconds : Nat := 30

/-- Embedding of a single tick of Driver.reportProtocolStatus (driver
source lines 269-275): the log record's fields, computed with Go's
wrapping uint64 arithmetic. -/
def statusReport (maxNumBlocks : Nat) (vars : ProtocolStateVars) : StatusReport :=
  { latestVerifiedId := vars.latestVerifiedId
    latestVerifiedHeight := vars.latestVerifiedHeight
    pendingBlocks := u64sub (u64sub vars.nextBlockId vars.latestVerifiedId) 1
    availableSlots := u64sub (u64add vars.latestVerifiedId maxNumBlocks) vars.nextBlockId }

/-- Embedding of the reporting loop of Driver.reportProtocolStatus:
maxNumBlocks is read once, before the loop, under constant-backoff retry;
every tick's report then uses that same value on its observed state
variables (none on a failed GetProtocolStateVariables, which the loop
logs and skips). -/
def reportProtocolStatus (maxNumBlocks : Nat)
    (ticks : List (Option ProtocolStateVars)) : List StatusReport :=
  ticks.filterMap (fun o => o.map (statusReport maxNumBlocks))

/-! ## Concrete inputs used by witness theorems -/

/-- Configuration with both parity filters off, real producer. -/
def cfgPlain : Config :=
  { maxConcurrentProvingJobs := 4, dummy := false,
    onlyProveEvenNumberBlocks := false, onlyProveOddNumberBlocks := false,
    startingBlockID := none }

/-- Configuration with OnlyProveEvenNumberBlocks set. -/
def cfgEvenOnly : Config := { cfgPlain with onlyProveEvenNumberBlocks := true }

/-- Configuration with OnlyProveOddNumberBlocks set. -/
def cfgOddOnly : Config := { cfgPlain with onlyProveOddNumberBlocks := true }

/-- Configuration for the dummy "oracle" producer mode. -/
def cfgOracle : Config := { cfgPlain with dummy := true }

/-- Configuration with MaxConcurrentProvingJobs = 2. -/
def cfgTwoJobs : Config := { cfgPlain with maxConcurrentProvingJobs := 2 }

/-- Prover state with lastHandledBlockID = 4. -/
def stFour : ProverState :=
  { latestVerifiedL1Height := 0, lastHandledBlockID := 4, l1Current := 0 }

/-- Worker environment in which every check passes and the tx list is
valid. -/
def envOK : WorkerEnv :=
  { isBlockVerified := some false, needNewProof := some true,
    txInBlock := some (), validateTxList := some .ok }

/-- Delivery of a proposed event with empty result channels and the benign
worker environment. -/
def mkDelivery (id rawBlockNumber : Nat) : Delivery :=
  { ev := { id := id, rawBlockNumber := rawBlockNumber },
    validChLen := 0, invalidChLen := 0, workerEnv := envOK }

/-- Init environment of spec scenario (a): protocol state
latestVerifiedId = 0, genesisHeight = 100. -/
def envGenesis : InitL1CurrentEnv :=
  { l2SyncedOk := true
    stateVars := some { genesisHeight := 100, latestVerifiedHeight := 0,
                        latestVerifiedId := 0, nextBlockId := 1 }
    l1OriginByID := fun _ => none }

/-- Init environment of spec scenario (b): latestVerifiedId = 7 whose
L1Origin reports L1BlockHeight = 512. -/
def envVerified7 : InitL1CurrentEnv :=
  { l2SyncedOk := true
    stateVars := some { genesisHeight := 100, latestVerifiedHeight := 40,
                        latestVerifiedId := 7, nextBlockId := 9 }
    l1OriginByID := fun i => if i = 7 then some { l1BlockHeight := 512 } else none }

/-- Attempt trace for the oracle retry witness: the context is cancelled
from attempt index 2 on. -/
def ctxErrW : Nat → Bool := fun n => decide (2 ≤ n)

/-- Attempt trace for the oracle retry witness: every submission attempt
fails. -/
def submitErrW : Nat → Bool := fun _ => true

/-- Protocol state variables for the status-report witness:
latestVerifiedId = 3, nextBlockId = 9. -/
def varsW : ProtocolStateVars :=
  { genesisHeight := 0, latestVerifiedHeight := 77,
    latestVerifiedId := 3, nextBlockId := 9 }

/-! ## Helper lemmas -/

/-- On every non-dispatch path, onBlockProposed returns before the cursor
updates of lines 340-341, so the state is unchanged. -/
theorem onBlockProposed_skip_state (cfg : Config) (vc ic : Nat) (s : ProverState)
    (ev : ProposedEvent) (h : (onBlockProposed cfg vc ic s ev).action ≠ .dispatch) :
    (onBlockProposed cfg vc ic s ev).state = s := by
  unfold onBlockProposed at h ⊢
  split_ifs at h ⊢ <;> first | rfl | simp at h

/-- On the dispatch path, onBlockProposed updates exactly l1Current and
lastHandledBlockID, and the skip check guarantees the dispatched id is
strictly above the previous lastHandledBlockID. -/
theorem onBlockProposed_dispatch_state (cfg : Config) (vc ic : Nat) (s : ProverState)
    (ev : ProposedEvent) (h : (onBlockProposed cfg vc ic s ev).action = .dispatch) :
    (onBlockProposed cfg vc ic s ev).state =
      { s with l1Current := ev.rawBlockNumber, lastHandledBlockID := ev.id } ∧
    s.lastHandledBlockID < ev.id := by
  unfold onBlockProposed at h ⊢
  split_ifs at h ⊢ with h1 h2 h3 h4
  simp_all

/-- Unfolding equation of runEvents on a delivery that dispatches. -/
theorem runEvents_cons_dispatch (cfg : Config) (d : Delivery) (ds : List Delivery)
    (s : ProverState)
    (hd : (onBlockProposed cfg d.validChLen d.invalidChLen s d.ev).action = .dispatch) :
    runEvents cfg s (d :: ds) =
      ((runEvents cfg (onBlockProposed cfg d.validChLen d.invalidChLen s d.ev).state ds).1,
       d.ev.id ::
         (runEvents cfg (onBlockProposed cfg d.validChLen d.invalidChLen s d.ev).state ds).2.1,
       if requestsProof d.workerEnv then
         d.ev.id ::
           (runEvents cfg (onBlockProposed cfg d.validChLen d.invalidChLen s d.ev).state ds).2.2
       else
         (runEvents cfg (onBlockProposed cfg d.validChLen d.invalidChLen s d.ev).state ds).2.2) := by
  simp [runEvents, hd]

/-- Unfolding equation of runEvents on a delivery that does not
dispatch. -/
theorem runEvents_cons_skip (cfg : Config) (d : Delivery) (ds : List Delivery)
    (s : ProverState)
    (hd : (onBlockProposed cfg d.validChLen d.invalidChLen s d.ev).action ≠ .dispatch) :
    runEvents cfg s (d :: ds) = runEvents cfg s ds := by
  have hstate := onBlockProposed_skip_state cfg d.validChLen d.invalidChLen s d.ev hd
  simp [runEvents, hd, hstate]

/-- Invariant of replaying deliveries: lastHandledBlockID never decreases,
every dispatched id is strictly above the initial lastHandledBlockID, the
dispatched ids are pairwise strictly increasing, and the ids for which
RequestProof is invoked form a sublist of the dispatched ids. -/
theorem runEvents_invariant (cfg : Config) : ∀ (ds : List Delivery) (s : ProverState),
    s.lastHandledBlockID ≤ (runEvents cfg s ds).1.lastHandledBlockID ∧
    (∀ i ∈ (runEvents cfg s ds).2.1, s.lastHandledBlockID < i) ∧
    List.Pairwise (· < ·) (runEvents cfg s ds).2.1 ∧
    (runEvents cfg s ds).2.2.Sublist (runEvents cfg s ds).2.1 := by
  intro ds
  induction ds with
  | nil => intro s; simp [runEvents]
  | cons d ds ih =>
    intro s
    by_cases hd : (onBlockProposed cfg d.validChLen d.invalidChLen s d.ev).action = .dispatch
    · obtain ⟨hstate, hlt⟩ :=
        onBlockProposed_dispatch_state cfg d.validChLen d.invalidChLen s d.ev hd
      have hlast :
          (onBlockProposed cfg d.validChLen d.invalidChLen s d.ev).state.lastHandledBlockID
            = d.ev.id := by
        rw [hstate]
      rw [runEvents_cons_dispatch cfg d ds s hd]
      dsimp only
      obtain ⟨ih1, ih2, ih3, ih4⟩ :=
        ih (onBlockProposed cfg d.validChLen d.invalidChLen s d.ev).state
      refine ⟨by omega, ?_, ?_, ?_⟩
      · intro i hi
        rcases List.mem_cons.mp hi with hi | hi
        · omega
        · have := ih2 i hi
          omega
      · refine List.pairwise_cons.mpr ⟨?_, ih3⟩
        intro i hi
        have := ih2 i hi
        omega
      · by_cases hreq : requestsProof d.workerEnv
        · simp only [hreq, if_pos]
          exact List.Sublist.cons₂ _ ih4
        · simp only [hreq, Bool.false_eq_true, if_false]
          exact List.Sublist.cons _ ih4
    · rw [runEvents_cons_skip cfg d ds s hd]
      exact ih s

/-- Occupancy bound of a fixed-capacity token channel: every reachable
occupancy is at most the capacity. -/
theorem guardReachable_le (cap : Nat) (n : Nat) (h : GuardReachable cap n) : n ≤ cap := by
  induction h with
  | init => omega
  | step _ hs ih => cases hs <;> omega

/-- The constant-backoff retry loop stops at the first attempt whose
closure returns nil: given such an attempt at index k within the fuel, the
loop terminates, makes at most k + 1 - i calls, every call before the last
returned an error, and the last call returned nil. -/
theorem oracleRetryCalls_stops (ok : Nat → Bool) :
    ∀ (fuel i k : Nat), i ≤ k → k < i + fuel → ok k = true →
    ∃ c, oracleRetryCalls ok fuel i = some c ∧ 1 ≤ c ∧ i + c ≤ k + 1 ∧
      (∀ j, i ≤ j → j + 1 < i + c → ok j = false) ∧ ok (i + c - 1) = true := by
  intro fuel
  induction fuel with
  | zero => intro i k h1 h2; omega
  | succ fuel ih =>
    intro i k h1 h2 hk
    by_cases hi : ok i = true
    · refine ⟨1, ?_, by omega, by omega, ?_, ?_⟩
      · simp [oracleRetryCalls, hi]
      · intro j hj1 hj2; omega
      · simpa using hi
    · have hik : i ≠ k := fun he => hi (he ▸ hk)
      obtain ⟨c, hc, hc1, hc2, hc3, hc4⟩ := ih (i + 1) k (by omega) (by omega) hk
      refine ⟨c + 1, ?_, by omega, by omega, ?_, ?_⟩
      · simp [oracleRetryCalls, hi, hc]
      · intro j hj1 hj2
        rcases Nat.eq_or_lt_of_le hj1 with he | hlt
        · simpa [← he] using hi
        · exact hc3 j hlt (by omega)
      · have : i + (c + 1) - 1 = i + 1 + c - 1 := by omega
        rw [this]
        exact hc4

/-! ## Claims -/

/-- C1: Monotonic dispatch — over any finite sequence of ProposedBlockEvent
deliveries, the dispatched block ids are strictly increasing, the ids for
which a submitter's RequestProof is invoked (a sublist of the dispatched
ids) are strictly increasing, and lastHandledBlockID is monotonically
non-decreasing. -/
theorem monotonic_dispatch (cfg : Config) (s : ProverState) (ds : List Delivery) :
    List.Pairwise (· < ·) (runEvents cfg s ds).2.1 ∧
    List.Pairwise (· < ·) (runEvents cfg s ds).2.2 ∧
    s.lastHandledBlockID ≤ (runEvents cfg s ds).1.lastHandledBlockID := by
  obtain ⟨h1, -, h3, h4⟩ := runEvents_invariant cfg ds s
  exact ⟨h3, List.Pairwise.sublist h4 h3, h1⟩

/-- C2: initL1Current cursor initialisation — with no configured starting
BlockID and latestVerifiedId = 0, l1Current becomes the protocol state's
genesisHeight; with a nonzero latestVerifiedId (or a configured starting
BlockID), l1Current becomes the L1 block height of that block id's
L1Origin. -/
theorem initL1Current_cursor (env : InitL1CurrentEnv) (s : ProverState) :
    (∀ vars, env.l2SyncedOk = true → env.stateVars = some vars →
      vars.latestVerifiedId = 0 →
      initL1Current env none s = some { s with l1Current := vars.genesisHeight }) ∧
    (∀ vars origin, env.l2SyncedOk = true → env.stateVars = some vars →
      vars.latestVerifiedId ≠ 0 →
      env.l1OriginByID vars.latestVerifiedId = some origin →
      initL1Current env none s = some { s with l1Current := origin.l1BlockHeight }) ∧
    (∀ sid origin, env.l2SyncedOk = true →
      env.l1OriginByID sid = some origin →
      initL1Current env (some sid) s = some { s with l1Current := origin.l1BlockHeight }) := by
  refine ⟨?_, ?_, ?_⟩
  · intro vars hs hv h0
    simp [initL1Current, hs, hv, h0]
  · intro vars origin hs hv h0 ho
    simp [initL1Current, hs, hv, h0, ho]
  · intro sid origin hs ho
    simp [initL1Current, hs, ho]

/-- Witness for C2: the spec's concrete scenarios (a) and (b) —
latestVerifiedId = 0 with genesisHeight = 100 gives l1Current = 100, and
latestVerifiedId = 7 whose L1Origin reports L1BlockHeight = 512 gives
l1Current = 512. -/
theorem initL1Current_cursor_witness :
    initL1Current envGenesis none stFour = some { stFour with l1Current := 100 } ∧
    initL1Current envVerified7 none stFour = some { stFour with l1Current := 512 } :=
  ⟨(initL1Current_cursor envGenesis stFour).1
      { genesisHeight := 100, latestVerifiedHeight := 0,
        latestVerifiedId := 0, nextBlockId := 1 } rfl rfl rfl,
   (initL1Current_cursor envVerified7 stFour).2.1
      { genesisHeight := 100, latestVerifiedHeight := 40,
        latestVerifiedId := 7, nextBlockId := 9 }
      { l1BlockHeight := 512 } rfl rfl (by decide) rfl⟩

/-- C3: Notify-channel coalescing — proveNotify and syncNotify have
capacity one, requests are non-blocking no-ops when the channel is full,
and any N ≥ 1 triggers starting from an empty channel leave exactly one
pending token. -/
theorem notify_channel_coalescing :
    proveNotifyCap = 1 ∧ syncNotifyCap = 1 ∧
    (∀ n, n ≤ 1 → reqProving n ≤ 1 ∧ reqSync n ≤ 1) ∧
    (∀ n, 1 ≤ n → reqProving n = n ∧ reqSync n = n) ∧
    (∀ N, 1 ≤ N → reqProving^[N] 0 = 1 ∧ reqSync^[N] 0 = 1) := by
  refine ⟨rfl, rfl, ?_, ?_, ?_⟩
  · intro n h
    unfold reqProving reqSync trySend proveNotifyCap syncNotifyCap
    split_ifs <;> omega
  · intro n h
    unfold reqProving reqSync trySend proveNotifyCap syncNotifyCap
    split_ifs <;> omega
  · intro N hN
    induction N with
    | zero => omega
    | succ n ih =>
      rcases Nat.eq_zero_or_pos n with h0 | hpos
      · subst h0
        constructor <;> rfl
      · rw [Function.iterate_succ_apply', Function.iterate_succ_apply']
        obtain ⟨i1, i2⟩ := ih hpos
        rw [i1, i2]
        constructor <;> rfl

/-- Witness for C3: a full channel absorbs a request unchanged, and three
consecutive triggers on an empty channel coalesce into one token. -/
theorem notify_channel_coalescing_witness :
    (reqProving 1 ≤ 1 ∧ reqSync 1 ≤ 1) ∧
    (reqProving 1 = 1 ∧ reqSync 1 = 1) ∧
    (reqProving^[3] 0 = 1 ∧ reqSync^[3] 0 = 1) :=
  ⟨notify_channel_coalescing.2.2.1 1 (by decide),
   notify_channel_coalescing.2.2.2.1 1 (by decide),
   notify_channel_coalescing.2.2.2.2 3 (by decide)⟩

/-- C4: Bounded concurrency — every occupancy reachable on the
fixed-capacity token channels proposeConcurrencyGuard and
submitProofConcurrencyGuard (token sent before a worker is spawned,
received when it exits) is at most MaxConcurrentProvingJobs. -/
theorem bounded_concurrency (cfg : Config) (n m : Nat)
    (hn : GuardReachable (proposeConcurrencyGuardCap cfg) n)
    (hm : GuardReachable (submitProofConcurrencyGuardCap cfg) m) :
    n ≤ cfg.maxConcurrentProvingJobs ∧ m ≤ cfg.maxConcurrentProvingJobs :=
  ⟨guardReachable_le _ n hn, guardReachable_le _ m hm⟩

/-- Witness for C4: with MaxConcurrentProvingJobs = 2, the occupancy 1
reached by one acquire, and the initial occupancy 0, are both within the
bound. -/
theorem bounded_concurrency_witness :
    1 ≤ cfgTwoJobs.maxConcurrentProvingJobs ∧
    0 ≤ cfgTwoJobs.maxConcurrentProvingJobs :=
  bounded_concurrency cfgTwoJobs 1 0
    (GuardReachable.step GuardReachable.init (GuardStep.acquire 0 (by decide)))
    GuardReachable.init

/-- C5: Oracle resubmission — submitProofOp retries a valid proof under the
dummy "oracle" producer with a constant 12-second backoff until an attempt
succeeds or the context is cancelled (a cancelled context makes the attempt
closure return nil, per the spec's error-handling design for the
out-of-scope SubmitProof), and submits exactly once otherwise. -/
theorem oracle_resubmission_policy (cfg : Config) (isValidProof : Bool)
    (ctxErr submitErr : Nat → Bool) :
    oracleResubmissionBackoffSeconds = 12 ∧
    usesOracleRetryLoop cfg isValidProof = (isValidProof && cfg.dummy) ∧
    (∀ n, ctxErr n = true → attemptOk ctxErr submitErr n = true) ∧
    (usesOracleRetryLoop cfg isValidProof = false →
      ∀ fuel, submitProofOpCalls cfg isValidProof ctxErr submitErr fuel = some 1) ∧
    (usesOracleRetryLoop cfg isValidProof = true →
      ∀ k fuel, attemptOk ctxErr submitErr k = true → k < fuel →
      ∃ c, submitProofOpCalls cfg isValidProof ctxErr submitErr fuel = some c ∧
        1 ≤ c ∧ c ≤ k + 1 ∧
        (∀ j, j + 1 < c → attemptOk ctxErr submitErr j = false) ∧
        attemptOk ctxErr submitErr (c - 1) = true) := by
  refine ⟨rfl, rfl, ?_, ?_, ?_⟩
  · intro n h
    simp [attemptOk, h]
  · intro h fuel
    simp [submitProofOpCalls, h]
  · intro h k fuel hk hfuel
    obtain ⟨c, hc, hc1, hc2, hc3, hc4⟩ :=
      oracleRetryCalls_stops (attemptOk ctxErr submitErr) fuel 0 k (by omega) (by omega) hk
    refine ⟨c, ?_, hc1, by omega, ?_, ?_⟩
    · simp [submitProofOpCalls, h, hc]
    · intro j hj
      exact hc3 j (by omega) (by omega)
    · simpa using hc4

/-- Witness for C5: with the dummy producer, a valid proof, every
submission attempt failing and the context cancelled from attempt 2 on,
the loop stops after at most three calls; with the real producer the same
proof is submitted exactly once. -/
theorem oracle_resubmission_policy_witness :
    attemptOk ctxErrW submitErrW 2 = true ∧
    (∃ c, submitProofOpCalls cfgOracle true ctxErrW submitErrW 5 = some c ∧
      1 ≤ c ∧ c ≤ 3 ∧
      (∀ j, j + 1 < c → attemptOk ctxErrW submitErrW j = false) ∧
      attemptOk ctxErrW submitErrW (c - 1) = true) ∧
    (∀ fuel, submitProofOpCalls cfgPlain true ctxErrW submitErrW fuel = some 1) :=
  ⟨(oracle_resubmission_policy cfgPlain true ctxErrW submitErrW).2.2.1 2 (by decide),
   (oracle_resubmission_policy cfgOracle true ctxErrW submitErrW).2.2.2.2 rfl 2 5
      (by decide) (by decide),
   (oracle_resubmission_policy cfgPlain true ctxErrW submitErrW).2.2.2.1 rfl⟩

/-- C6: Parity filter — with OnlyProveEvenNumberBlocks set, onBlockProposed
never dispatches an odd id; with OnlyProveOddNumberBlocks set, never an
even id. -/
theorem parity_filter (cfg : Config) (vc ic : Nat) (s : ProverState) (ev : ProposedEvent) :
    (cfg.onlyProveEvenNumberBlocks = true →
      (onBlockProposed cfg vc ic s ev).action = .dispatch → ev.id % 2 = 0) ∧
    (cfg.onlyProveOddNumberBlocks = true →
      (onBlockProposed cfg vc ic s ev).action = .dispatch → ev.id % 2 = 1) := by
  unfold onBlockProposed
  constructor <;> intro hc hd <;> split_ifs at hd <;> simp_all

/-- Witness for C6: under the even-only config the dispatched id 6 is even;
under the odd-only config the dispatched id 7 is odd. -/
theorem parity_filter_witness :
    (mkDelivery 6 10).ev.id % 2 = 0 ∧ (mkDelivery 7 11).ev.id % 2 = 1 :=
  ⟨(parity_filter cfgEvenOnly 0 0 stFour (mkDelivery 6 10).ev).1 rfl (by decide),
   (parity_filter cfgOddOnly 0 0 stFour (mkDelivery 7 11).ev).2 rfl (by decide)⟩

/-- C7: Idempotent skip — an event with id at most lastHandledBlockID is
never dispatched and leaves the state unchanged; concretely, the stream
[id=5, id=6, id=5] starting from lastHandledBlockID = 4 dispatches exactly
ids 5 and 6, the replayed id-5 event being skipped. -/
theorem idempotent_skip :
    (∀ (cfg : Config) (vc ic : Nat) (s : ProverState) (ev : ProposedEvent),
      ev.id ≤ s.lastHandledBlockID →
      (onBlockProposed cfg vc ic s ev).action ≠ .dispatch ∧
      (onBlockProposed cfg vc ic s ev).state = s) ∧
    (runEvents cfgPlain stFour [mkDelivery 5 101, mkDelivery 6 102, mkDelivery 5 103]).2.1
      = [5, 6] ∧
    (onBlockProposed cfgPlain 0 0
        (runEvents cfgPlain stFour [mkDelivery 5 101, mkDelivery 6 102]).1
        (mkDelivery 5 103).ev).action = .skipHandled := by
  refine ⟨?_, by decide, by decide⟩
  intro cfg vc ic s ev h
  have hnd : (onBlockProposed cfg vc ic s ev).action ≠ .dispatch := by
    unfold onBlockProposed
    split_ifs <;> simp_all
  exact ⟨hnd, onBlockProposed_skip_state cfg vc ic s ev hnd⟩

/-- Witness for C7: replaying id 3 with lastHandledBlockID = 4 yields no
dispatch and an unchanged state. -/
theorem idempotent_skip_witness :
    (onBlockProposed cfgPlain 0 0 stFour (mkDelivery 3 50).ev).action ≠ .dispatch ∧
    (onBlockProposed cfgPlain 0 0 stFour (mkDelivery 3 50).ev).state = stFour :=
  idempotent_skip.1 cfgPlain 0 0 stFour (mkDelivery 3 50).ev (by decide)

/-- C8: Early stop on pending proofs — whenever a result channel is
non-empty, onBlockProposed invokes end() and returns immediately with the
state untouched, performing no skip check, filter, token acquisition or
dispatch. -/
theorem early_stop_on_pending_proofs (cfg : Config) (vc ic : Nat) (s : ProverState)
    (ev : ProposedEvent) (h : 0 < vc ∨ 0 < ic) :
    onBlockProposed cfg vc ic s ev = { state := s, action := .endIter } := by
  unfold onBlockProposed
  have h1 : (vc > 0 || ic > 0) = true := by
    rcases h with h | h <;> simp [h]
  rw [if_pos h1]

/-- Witness for C8: a single pending valid proof makes onBlockProposed end
the iteration at once. -/
theorem early_stop_on_pending_proofs_witness :
    onBlockProposed cfgPlain 1 0 stFour (mkDelivery 9 100).ev
      = { state := stFour, action := .endIter } :=
  early_stop_on_pending_proofs cfgPlain 1 0 stFour (mkDelivery 9 100).ev (Or.inl (by decide))

/-- C9: Driver status arithmetic — each 30-second report carries
pendingBlocks = nextBlockId − latestVerifiedId − 1 and availableSlots =
latestVerifiedId + maxNumBlocks − nextBlockId, computed with wrapping
uint64 arithmetic (equal to the integer formulas taken modulo 2^64). -/
theorem driver_status_arithmetic (maxNumBlocks : Nat) (vars : ProtocolStateVars)
    (hm : maxNumBlocks < UINT64_MOD) (hn : vars.nextBlockId < UINT64_MOD)
    (hl : vars.latestVerifiedId < UINT64_MOD) :
    statusReportIntervalSeconds = 30 ∧
    (statusReport maxNumBlocks vars).latestVerifiedId = vars.latestVerifiedId ∧
    (statusReport maxNumBlocks vars).latestVerifiedHeight = vars.latestVerifiedHeight ∧
    ((statusReport maxNumBlocks vars).pendingBlocks : Int) =
      ((vars.nextBlockId : Int) - vars.latestVerifiedId - 1) % 2 ^ 64 ∧
    ((statusReport maxNumBlocks vars).availableSlots : Int) =
      ((vars.latestVerifiedId : Int) + maxNumBlocks - vars.nextBlockId) % 2 ^ 64 := by
  have hM : UINT64_MOD = 18446744073709551616 := by norm_num [UINT64_MOD]
  have hM2 : (2 : Int) ^ 64 = 18446744073709551616 := by norm_num
  refine ⟨rfl, rfl, rfl, ?_, ?_⟩
  · simp only [statusReport, u64sub, u64add, hM, hM2] at *
    omega
  · simp only [statusReport, u64sub, u64add, hM, hM2] at *
    omega

/-- Witness for C9: with maxNumBlocks = 2048, latestVerifiedId = 3 and
nextBlockId = 9, the report shows pendingBlocks = 5 and availableSlots =
2042. -/
theorem driver_status_arithmetic_witness :
    statusReportIntervalSeconds = 30 ∧
    (statusReport 2048 varsW).latestVerifiedId = varsW.latestVerifiedId ∧
    (statusReport 2048 varsW).latestVerifiedHeight = varsW.latestVerifiedHeight ∧
    ((statusReport 2048 varsW).pendingBlocks : Int) =
      ((varsW.nextBlockId : Int) - varsW.latestVerifiedId - 1) % 2 ^ 64 ∧
    ((statusReport 2048 varsW).availableSlots : Int) =
      ((varsW.latestVerifiedId : Int) + 2048 - varsW.nextBlockId) % 2 ^ 64 :=
  driver_status_arithmetic 2048 varsW (by decide) (by decide) (by decide)

/-- C10: Skip paths leave the cursors unchanged — on every return of
onBlockProposed that does not dispatch a worker, l1Current,
lastHandledBlockID and latestVerifiedL1Height keep their previous values;
moreover a parity-filtered id stays strictly above lastHandledBlockID, so
a later pass re-examines the same event. -/
theorem skip_paths_frame (cfg : Config) (vc ic : Nat) (s : ProverState)
    (ev : ProposedEvent)
    (h : (onBlockProposed cfg vc ic s ev).action ≠ .dispatch) :
    (onBlockProposed cfg vc ic s ev).state.l1Current = s.l1Current ∧
    (onBlockProposed cfg vc ic s ev).state.lastHandledBlockID = s.lastHandledBlockID ∧
    (onBlockProposed cfg vc ic s ev).state.latestVerifiedL1Height
      = s.latestVerifiedL1Height ∧
    ((onBlockProposed cfg vc ic s ev).action = .skipParity →
      s.lastHandledBlockID < ev.id) := by
  have hs := onBlockProposed_skip_state cfg vc ic s ev h
  refine ⟨by rw [hs], by rw [hs], by rw [hs], ?_⟩
  intro hp
  unfold onBlockProposed at hp
  split_ifs at hp <;> simp_all

/-- Witness for C10: the parity-filtered id 5 under the even-only config
changes no cursor field and remains above lastHandledBlockID = 4. -/
theorem skip_paths_frame_witness :
    (onBlockProposed cfgEvenOnly 0 0 stFour (mkDelivery 5 99).ev).state.l1Current
      = stFour.l1Current ∧
    (onBlockProposed cfgEvenOnly 0 0 stFour (mkDelivery 5 99).ev).state.lastHandledBlockID
      = stFour.lastHandledBlockID ∧
    stFour.lastHandledBlockID < (mkDelivery 5 99).ev.id :=
  ⟨(skip_paths_frame cfgEvenOnly 0 0 stFour (mkDelivery 5 99).ev (by decide)).1,
   (skip_paths_frame cfgEvenOnly 0 0 stFour (mkDelivery 5 99).ev (by decide)).2.1,
   (skip_paths_frame cfgEvenOnly 0 0 stFour (mkDelivery 5 99).ev (by decide)).2.2.2
     (by decide)⟩

end TaikoClient
